import Mathlib

/-!
Verification of the Winscope ADB proxy (`tools/winscope/src/adb/winscope_proxy.py`).

The development is a shallow embedding of the proxy's trace-session
controller and authenticated request router:

* Python `dict`s are modelled as association lists with first-match lookup,
  in-place update and ordered insertion (`dictGet`, `dictInsert`, `dictPop`);
* the global `TRACE_THREADS: dict[str, dict[str, TraceThread]]` registry is
  the `Registry` type, threaded explicitly through every endpoint;
* Python exceptions are the `PyExn` type and fallible code returns
  `Except PyExn`;
* interactions with the spawned `adb shell` process and with one-shot
  `call_adb` invocations are oracles passed as arguments (does `wait` time
  out; what does each poll of the status-marker file return).
-/

set_option autoImplicit false

namespace WinscopeProxy

/-! ## Python-level helpers -/

/-- Python `str(bool)`: `str(True) = "True"`, `str(False) = "False"`. -/
def pyStrBool (b : Bool) : String :=
  if b then "True" else "False"

/-- Python truthiness of an optional string: `None` and `""` are falsy. -/
def pyFalsy : Option String → Bool
  | none => true
  | some s => s = ""

/-- Python `str.strip(c)`: remove every leading and trailing occurrence of
the character `c`. -/
def stripChar (c : Char) (s : List Char) : List Char :=
  ((s.dropWhile (· = c)).reverse.dropWhile (· = c)).reverse

/-- Python `str.split(sep)` for a one-character separator: always returns at
least one (possibly empty) segment; `"".split(sep) = [""]`. -/
def pySplit (sep : Char) : List Char → List (List Char)
  | [] => [[]]
  | c :: rest =>
    match pySplit sep rest with
    | [] => [[]]
    | seg :: segs => if c = sep then [] :: seg :: segs else (c :: seg) :: segs

/-! ## Request and response model -/

/-- The `RequestType` enum of the proxy (`GET = 1`, `POST = 2`, `HEAD = 3`). -/
inductive RequestType where
  | GET
  | POST
  | HEAD
deriving DecidableEq, Repr

/-- Python `repr` of a `RequestType` enum member, e.g. `<RequestType.GET: 1>`. -/
def requestTypeRepr : RequestType → String
  | .GET => "<RequestType.GET: 1>"
  | .POST => "<RequestType.POST: 2>"
  | .HEAD => "<RequestType.HEAD: 3>"

/-- An HTTP response produced through `ADBWinscopeProxy.respond`: status
code, body text and MIME type (the fixed no-cache/CORS/version headers are
attached unconditionally by `add_standard_headers` and are not modelled). -/
structure Response where
  status : Nat
  body : String
  mime : String
deriving DecidableEq, Repr

/-- Python exceptions that can cross the endpoint/router boundary.

`subprocess.TimeoutExpired` (raised by `Popen.wait` on timeout) derives from
`subprocess.SubprocessError`, which derives directly from `Exception`; the
builtin `TimeoutError` is an `OSError` subclass.  The two are unrelated, so
an `except TimeoutError:` clause does not catch `subprocess.TimeoutExpired`. -/
inductive PyExn where
  /-- An exception `subprocess.TimeoutExpired`, raised by `Popen.wait`. -/
  | timeoutExpired
  /-- The builtin `TimeoutError` (an `OSError`); nothing in the proxy raises it. -/
  | builtinTimeoutError
  /-- An exception `BadRequest(msg)` (invalid client request). -/
  | badRequest (msg : String)
  /-- An exception `AdbError(msg)` (unsuccessful ADB operation). -/
  | adbError (msg : String)
  /-- An exception `KeyError` whose `repr` is the given string. -/
  | keyError (reprStr : String)
  /-- An `IndexError`, e.g. `path[0]` on an empty list. -/
  | indexError
deriving DecidableEq, Repr

/-- Which `PyExn`s an `except TimeoutError:` clause catches: only the builtin
`TimeoutError`; in particular NOT `subprocess.TimeoutExpired`. -/
def PyExn.isTimeoutError : PyExn → Bool
  | .builtinTimeoutError => true
  | _ => false

/-! ## Python dict model

Association lists with Python `dict` semantics: lookup returns the first
(and in a real dict, only) binding; assignment to an existing key updates it
in place, assignment to a fresh key appends; `pop` removes the binding. -/

/-- Python `m[k]`/`k in m` lookup: first binding for `k`, if any. -/
def dictGet {α : Type} : List (String × α) → String → Option α
  | [], _ => none
  | (k, v) :: rest, key => if k = key then some v else dictGet rest key

/-- Python `m[k] = v`: update the binding in place, or append a new one. -/
def dictInsert {α : Type} : List (String × α) → String → α → List (String × α)
  | [], key, v => [(key, v)]
  | (k, w) :: rest, key, v =>
    if k = key then (key, v) :: rest else (k, w) :: dictInsert rest key v

/-- Python `m.pop(k)`: remove the binding for `k` (a no-op if absent; the
proxy only pops keys it has just looked up). -/
def dictPop {α : Type} : List (String × α) → String → List (String × α)
  | [], _ => []
  | (k, w) :: rest, key => if k = key then rest else (k, w) :: dictPop rest key

/-! ## Trace sessions -/

/-- Number of iterations of the completion poll loop in `TraceThread.run`:
`int(COMMAND_TIMEOUT_S / retry_interval) = int(15 / 0.1)`.  As IEEE-754
doubles, `15 / 0.1` rounds to exactly `150.0`, so the bound is `150`. -/
def pollBound : Nat := 150

/-- State of one `TraceThread` (the per-session worker of the proxy).

The thread object bundles immutable construction data (`target_id`,
`device_id`, `status_filename`) with the mutable per-session state: whether
a keep-alive timer is currently armed, the stdout/stderr captured by
`process.communicate` once the process has exited, the
`_command_timed_out`/`_success` flags, and whether the thread is still alive
(`threading.Thread.is_alive`). -/
structure TraceThread where
  target_id : String
  device_id : String
  status_filename : String
  keep_alive_timer_armed : Bool
  out : String
  err : String
  command_timed_out : Bool
  success : Bool
  alive : Bool
deriving DecidableEq, Repr

/-- Model of `TraceThread.reset_timer`: cancel any armed keep-alive timer and
arm a fresh one with the 5-second `KEEP_ALIVE_INTERVAL_S` deadline. -/
def TraceThread.reset_timer (t : TraceThread) : TraceThread :=
  { t with keep_alive_timer_armed := true }

/-- Effects performed by one call of `TraceThread.end_trace`. -/
structure EndTraceEffects where
  timer_cancelled : Bool
  sigint_sent : Bool
  killed : Bool
  joined : Bool
deriving DecidableEq, Repr

/-- Model of `TraceThread.end_trace`.  `waitTimesOut` is the process oracle:
`true` iff `self.process.wait(timeout=COMMAND_TIMEOUT_S)` does not return
within the 15-second timeout, in which case `Popen.wait` raises
`subprocess.TimeoutExpired`.  The source's handler is `except TimeoutError:`
(the builtin `OSError` subclass), which does not match
`subprocess.TimeoutExpired`, so the raised exception is re-raised past the
kill branch; this is modelled by the `PyExn.isTimeoutError` dispatch. -/
def TraceThread.end_trace (t : TraceThread) (waitTimesOut : Bool) :
    Except PyExn (TraceThread × EndTraceEffects) :=
  -- if self._keep_alive_timer: self._keep_alive_timer.cancel()
  let cancelled := t.keep_alive_timer_armed
  let t1 : TraceThread := { t with keep_alive_timer_armed := false }
  -- self.process.send_signal(signal.SIGINT)
  -- try: self.process.wait(timeout=COMMAND_TIMEOUT_S)
  -- except TimeoutError: self.process.kill()
  if waitTimesOut then
    if PyExn.timeoutExpired.isTimeoutError then
      -- the kill branch of the handler (dead for `subprocess.TimeoutExpired`)
      Except.ok ({ t1 with alive := false },
        { timer_cancelled := cancelled, sigint_sent := true, killed := true, joined := true })
    else
      Except.error PyExn.timeoutExpired
  else
    -- wait returned within the timeout; self.join() then waits for run()
    Except.ok ({ t1 with alive := false },
      { timer_cancelled := cancelled, sigint_sent := true, killed := false, joined := true })

/-- Completion reconciliation loop of `TraceThread.run`, after
`process.communicate` has returned.  `polls i` is the output of the `i`-th
`call_adb("shell su root cat <status_filename>")` invocation; `fuel` counts
the remaining iterations of `for i in range(int(COMMAND_TIMEOUT_S / retry_interval))`.
Returns the final `(_success, _command_timed_out)` pair (both start `False`). -/
def pollStatusLoop (polls : Nat → String) (target_id : String) (err : String) :
    Nat → Nat → Bool × Bool
  | 0, _ => (false, true)
  | fuel + 1, i =>
    if polls i = "TRACE_OK\n" then
      (if target_id = "PerfettoTrace" then true else err.length = 0, false)
    else
      pollStatusLoop polls target_id err fuel (i + 1)

/-- Model of the tail of `TraceThread.run`: once the trace shell has exited
with captured stderr `err`, poll the status-marker file for the `TRACE_OK`
completion sentinel up to `pollBound` times and compute the final
`(_success, _command_timed_out)` flags. -/
def TraceThread.run_reconcile (polls : Nat → String) (target_id : String)
    (err : String) : Bool × Bool :=
  pollStatusLoop polls target_id err pollBound 0

/-! ## Session registry -/

/-- The global registry `TRACE_THREADS: dict[str, dict[str, TraceThread]]`:
device id → (target id → session). -/
abbrev Registry : Type := List (String × List (String × TraceThread))

/-- The empty registry (the initial value `TRACE_THREADS = {}`). -/
def emptyRegistry : Registry := []

/-- Two-level lookup: the session registered for `(device_id, target_id)`. -/
def dictGet2 (reg : Registry) (device_id target_id : String) : Option TraceThread :=
  match dictGet reg device_id with
  | none => none
  | some threads => dictGet threads target_id

/-- Total number of registered sessions across all devices. -/
def sessionCount (reg : Registry) : Nat :=
  (reg.map (fun p => p.2.length)).sum

/-- Number of registry entries for the key `(d, t)`, counting duplicates at
both levels (in a faithful image of nested Python dicts this is at most 1). -/
def keyCount (reg : Registry) (d t : String) : Nat :=
  (reg.map (fun p => if p.1 = d then p.2.countP (fun q => q.1 == t) else 0)).sum

/-- Well-formedness of the registry as an image of nested Python dicts: no
duplicate device keys, and no duplicate target keys within a device. -/
def RegWF (reg : Registry) : Prop :=
  (reg.map Prod.fst).Nodup ∧ ∀ p ∈ reg, (p.2.map Prod.fst).Nodup

instance : DecidablePred RegWF := fun reg => by
  unfold RegWF
  infer_instance

/-! ## Endpoints

Each endpoint's `process`/`process_with_device` is modelled as a function
from the registry (plus any request-body data and adb oracles it reads) to
`Except PyExn (Response × Registry)`: a normal `respond` plus the updated
registry, or a raised exception for the router to classify. -/

/-- The behaviour of an endpoint as seen by the router: given the current
registry and the residual path segments `path[1:]`, either respond (with a
possibly updated registry) or raise. -/
def EndpointFn : Type :=
  Registry → List String → Except PyExn (Response × Registry)

/-- One character of the device-id regex `[A-Za-z0-9._:\-]+`. -/
def deviceIdChar (c : Char) : Bool :=
  (decide (Char.ofNat 65 ≤ c ∧ c ≤ Char.ofNat 90)) ||
  (decide (Char.ofNat 97 ≤ c ∧ c ≤ Char.ofNat 122)) ||
  (decide (Char.ofNat 48 ≤ c ∧ c ≤ Char.ofNat 57)) ||
  c = '.' || c = '_' || c = ':' || c = '-'

/-- Model of `re.fullmatch("[A-Za-z0-9._:\\-]+", s)`: nonempty and every
character in the class (which includes the underscore). -/
def deviceIdMatches (s : String) : Bool :=
  !s.isEmpty && s.data.all deviceIdChar

/-- Model of `DeviceRequestEndpoint.process`: if the first residual path
segment is a device id matching the identifier regex, run the concrete
endpoint's `process_with_device` on the remaining segments; otherwise raise
`BadRequest("Device id not specified")`. -/
def DeviceRequestEndpoint.process
    (process_with_device : Registry → List String → String → Except PyExn (Response × Registry)) :
    EndpointFn := fun reg path =>
  match path with
  | [] => Except.error (PyExn.badRequest "Device id not specified")
  | d :: rest =>
    if deviceIdMatches d then process_with_device reg rest d
    else Except.error (PyExn.badRequest "Device id not specified")

/-- Model of `StatusEndpoint.process_with_device`: raise `BadRequest` when
the device has no registered sessions at all; answer `str(False)` when the
device is known but the target is not; otherwise reset the session's
keep-alive timer and answer `str(thread.is_alive())`. -/
def StatusEndpoint.process_with_device (reg : Registry) (path : List String)
    (device_id : String) : Except PyExn (Response × Registry) :=
  match dictGet reg device_id with
  | none => Except.error (PyExn.badRequest ("No trace in progress for " ++ device_id))
  | some threads =>
    match path with
    | [] => Except.error PyExn.indexError   -- `path[0]` on an empty list
    | target :: _ =>
      match dictGet threads target with
      | none =>
        Except.ok ({ status := 200, body := pyStrBool false, mime := "text/plain" }, reg)
      | some thread =>
        let thread' := thread.reset_timer
        Except.ok ({ status := 200, body := pyStrBool thread.alive, mime := "text/plain" },
          dictInsert reg device_id (dictInsert threads target thread'))

/-- Registry mutation performed by `StartTraceEndpoint.process_with_device`
once the `TraceThread` has been constructed: create a fresh inner dict for a
new device, otherwise assign into the existing inner dict. -/
def StartTraceEndpoint.registerThread (reg : Registry) (device_id target_id : String)
    (thread : TraceThread) : Registry :=
  match dictGet reg device_id with
  | none => dictInsert reg device_id (dictInsert [] target_id thread)
  | some threads => dictInsert reg device_id (dictInsert threads target_id thread)

/-- Python `repr` of a `bytes` value `b"s"` (inner escaping not modelled;
the proxy only ever formats it into a diagnostic message). -/
def pyBytesRepr (s : String) : String :=
  "b" ++ "\x27" ++ s ++ "\x27"

/-- Python `json.dumps` of a list of plain strings. -/
def jsonDumpsList : List String → String
  | [] => "[]"
  | xs => "[" ++ String.intercalate ", " (xs.map (fun s => "\x22" ++ s ++ "\x22")) ++ "]"

/-- The error strings accumulated by `EndTraceEndpoint.process_with_device`
from the session's final flags. -/
def endTraceErrors (thread : TraceThread) (target_id : String) : List String :=
  (if thread.command_timed_out then
    ["Trace " ++ target_id ++ " timed out during cleanup"] else []) ++
  (if thread.success then [] else
    ["Error ending trace " ++ target_id ++ " on the device: " ++ pyBytesRepr thread.err])

/-- Model of `EndTraceEndpoint.process_with_device`.  `target_id` is the
`targetId` field of the JSON request body; `waitTimesOut` is the process
oracle passed through to `end_trace` when the session is still alive;
`shLog` is the output of the `cat SIGNAL_HANDLER_LOG` adb call (it only
feeds the debug output, not the response).  On success the session's slot is
popped, the device's entry is popped once empty, and the response is the
JSON list of error strings. -/
def EndTraceEndpoint.process_with_device (reg : Registry) (waitTimesOut : Bool)
    (_shLog : String) (target_id : String) (device_id : String) :
    Except PyExn (Response × Registry) :=
  match dictGet reg device_id with
  | none => Except.error (PyExn.badRequest ("No trace in progress for " ++ device_id))
  | some threads =>
    match dictGet threads target_id with
    | none => Except.error (PyExn.badRequest
        ("No " ++ target_id ++ " trace in progress for " ++ device_id))
    | some thread =>
      -- if thread.is_alive(): thread.end_trace()
      match (if thread.alive then
               (thread.end_trace waitTimesOut).map (fun r => r.1)
             else Except.ok thread) with
      | Except.error e => Except.error e
      | Except.ok thread' =>
        let errors := endTraceErrors thread' target_id
        let threads' := dictPop threads target_id
        let reg' := if threads'.isEmpty then dictPop reg device_id
                    else dictInsert reg device_id threads'
        Except.ok ({ status := 200, body := jsonDumpsList errors, mime := "text/plain" }, reg')

/-! ## Authenticated request router -/

/-- Response of `RequestRouter._bad_request`. -/
def badRequestResp (error : String) : Response :=
  { status := 400
    body := "Bad request!\nThis is Winscope ADB proxy.\n\n" ++ error
    mime := "text/txt" }

/-- Response of `RequestRouter._internal_error`. -/
def internalErrorResp (error : String) : Response :=
  { status := 500, body := error, mime := "text/txt" }

/-- Response of `RequestRouter._bad_token`. -/
def badTokenResp : Response :=
  { status := 403
    body := "Bad Winscope authorization token!\nThis is Winscope ADB proxy.\n"
    mime := "text/txt" }

/-- Containment of `pat` as a contiguous substring of a character list. -/
def containsSubList (pat : List Char) : List Char → Bool
  | [] => pat.isEmpty
  | c :: rest => pat.isPrefixOf (c :: rest) || containsSubList pat rest

/-- Python `pat in s` substring test. -/
def containsSub (s pat : String) : Bool :=
  containsSubList pat.data s.data

/-- Python `repr` of the `KeyError` raised by the failed endpoint-table
lookup `self.endpoints[(method, endpoint_name)]`: the key tuple's repr
contains the enum member's repr and hence the text `RequestType`. -/
def tableKeyErrorRepr (method : RequestType) (name : String) : String :=
  ("KeyError((" ++ requestTypeRepr method) ++ (", " ++ "\x27" ++ name ++ "\x27" ++ "))")

/-- The `except` cascade of `RequestRouter.process`, in source order:
`KeyError` (split on whether its repr mentions `RequestType`), `AdbError`,
`BadRequest`, then any other exception. -/
def RequestRouter.classifyExn (endpoint_name : String) : PyExn → Response
  | .keyError r =>
    if containsSub r "RequestType" then
      badRequestResp ("Unknown endpoint /" ++ endpoint_name ++ "/")
    else internalErrorResp r
  | .adbError m => internalErrorResp m
  | .badRequest m => badRequestResp m
  | e => internalErrorResp (reprStr e)

/-- Model of `RequestRouter.process`.  `endpoints` is the registration table
(`register_endpoint`); `secret` is the process-wide `secret_token`; `token`
is the `Winscope-Token` request header (`none` when absent).  Returns the
response together with the (possibly updated) registry. -/
def RequestRouter.process (endpoints : RequestType × String → Option EndpointFn)
    (secret : String) (reg : Registry) (method : RequestType) (reqPath : String)
    (token : Option String) : Response × Registry :=
  -- if not token or token != secret_token: return self._bad_token()
  if pyFalsy token || !(token == some secret) then
    (badTokenResp, reg)
  else
    -- path = self.request.path.strip('/').split('/')
    let segs := (pySplit '/' (stripChar '/' reqPath.data)).map (fun l => String.mk l)
    match segs with
    | [] => (badRequestResp "No endpoint specified", reg)
    | endpoint_name :: rest =>
      match
        (match endpoints (method, endpoint_name) with
         | none => Except.error (PyExn.keyError (tableKeyErrorRepr method endpoint_name))
         | some f => f reg rest)
      with
      | Except.ok (resp, reg') => (resp, reg')
      | Except.error e => (RequestRouter.classifyExn endpoint_name e, reg)

/-- The endpoint registration table built in `ADBWinscopeProxy.__init__`,
parameterized by the behaviour of each registered endpoint. -/
def adbWinscopeEndpoints (devices status fetch runadbcmd starttrace endtrace : EndpointFn) :
    RequestType × String → Option EndpointFn
  | (.GET, "devices") => some devices
  | (.GET, "status") => some status
  | (.GET, "fetch") => some fetch
  | (.POST, "runadbcmd") => some runadbcmd
  | (.POST, "starttrace") => some starttrace
  | (.POST, "endtrace") => some endtrace
  | _ => none

/-- The status endpoint as registered with the router (its `process`
inherited from `DeviceRequestEndpoint`). -/
def statusEndpointFn : EndpointFn :=
  DeviceRequestEndpoint.process StatusEndpoint.process_with_device

/-- Stand-in for the endpoints outside the modelled core (device listing,
file fetch, raw command passthrough, start/end trace at router level): they
are registered in the table but none of the claims exercises their bodies. -/
def unmodeledEndpoint : EndpointFn := fun reg _ =>
  Except.ok ({ status := 200, body := "", mime := "text/plain" }, reg)

/-! ## Lemmas about the dict model -/

theorem dictGet_cons_self {α : Type} (a : String) (w : α) (rest : List (String × α)) :
    dictGet ((a, w) :: rest) a = some w := by
  simp [dictGet]

theorem dictGet_cons_ne {α : Type} {a k : String} (w : α) (rest : List (String × α))
    (h : a ≠ k) : dictGet ((a, w) :: rest) k = dictGet rest k := by
  simp [dictGet, h]

theorem dictInsert_cons_self {α : Type} (a : String) (w : α) (rest : List (String × α))
    (v : α) : dictInsert ((a, w) :: rest) a v = (a, v) :: rest := by
  simp [dictInsert]

theorem dictInsert_cons_ne {α : Type} {a k : String} (w : α) (rest : List (String × α))
    (v : α) (h : a ≠ k) : dictInsert ((a, w) :: rest) k v = (a, w) :: dictInsert rest k v := by
  simp [dictInsert, h]

theorem dictPop_cons_self {α : Type} (a : String) (w : α) (rest : List (String × α)) :
    dictPop ((a, w) :: rest) a = rest := by
  simp [dictPop]

theorem dictPop_cons_ne {α : Type} {a k : String} (w : α) (rest : List (String × α))
    (h : a ≠ k) : dictPop ((a, w) :: rest) k = (a, w) :: dictPop rest k := by
  simp [dictPop, h]

theorem dictGet_dictInsert_self {α : Type} (m : List (String × α)) (k : String) (v : α) :
    dictGet (dictInsert m k v) k = some v := by
  induction m with
  | nil => simp [dictInsert, dictGet]
  | cons p rest ih =>
    obtain ⟨a, w⟩ := p
    by_cases h : a = k
    · subst h
      rw [dictInsert_cons_self, dictGet_cons_self]
    · rw [dictInsert_cons_ne w rest v h, dictGet_cons_ne _ _ h, ih]

theorem dictGet_dictInsert_ne {α : Type} (m : List (String × α)) (k k' : String) (v : α)
    (h : k' ≠ k) : dictGet (dictInsert m k v) k' = dictGet m k' := by
  have h' : k ≠ k' := fun hh => h hh.symm
  induction m with
  | nil => simp [dictInsert, dictGet, h']
  | cons p rest ih =>
    obtain ⟨a, w⟩ := p
    by_cases ha : a = k
    · subst ha
      rw [dictInsert_cons_self, dictGet_cons_ne _ _ h', dictGet_cons_ne _ _ h']
    · rw [dictInsert_cons_ne w rest v ha]
      by_cases hak : a = k'
      · subst hak
        rw [dictGet_cons_self, dictGet_cons_self]
      · rw [dictGet_cons_ne _ _ hak, dictGet_cons_ne _ _ hak, ih]

theorem dictGet_eq_none_iff {α : Type} (m : List (String × α)) (k : String) :
    dictGet m k = none ↔ k ∉ m.map Prod.fst := by
  induction m with
  | nil => simp [dictGet]
  | cons p rest ih =>
    obtain ⟨a, w⟩ := p
    by_cases h : a = k
    · subst h
      rw [dictGet_cons_self]
      simp
    · rw [dictGet_cons_ne _ _ h, List.map_cons, List.mem_cons, not_or, ih]
      exact ⟨fun hk => ⟨fun hh => h hh.symm, hk⟩, fun hk => hk.2⟩

theorem mem_of_dictGet {α : Type} (m : List (String × α)) (k : String) (v : α)
    (h : dictGet m k = some v) : (k, v) ∈ m := by
  induction m with
  | nil => simp [dictGet] at h
  | cons p rest ih =>
    obtain ⟨a, w⟩ := p
    by_cases ha : a = k
    · subst ha
      rw [dictGet_cons_self, Option.some.injEq] at h
      subst h
      exact List.mem_cons_self _ _
    · rw [dictGet_cons_ne _ _ ha] at h
      exact List.mem_cons_of_mem _ (ih h)

theorem dictGet_dictPop_self {α : Type} (m : List (String × α)) (k : String)
    (h : (m.map Prod.fst).Nodup) : dictGet (dictPop m k) k = none := by
  induction m with
  | nil => simp [dictPop, dictGet]
  | cons p rest ih =>
    obtain ⟨a, w⟩ := p
    rw [List.map_cons, List.nodup_cons] at h
    by_cases ha : a = k
    · subst ha
      rw [dictPop_cons_self]
      exact (dictGet_eq_none_iff rest a).2 h.1
    · rw [dictPop_cons_ne w rest ha, dictGet_cons_ne _ _ ha]
      exact ih h.2

theorem dictGet_dictPop_ne {α : Type} (m : List (String × α)) (k k' : String)
    (h : k' ≠ k) : dictGet (dictPop m k) k' = dictGet m k' := by
  have h' : k ≠ k' := fun hh => h hh.symm
  induction m with
  | nil => simp [dictPop]
  | cons p rest ih =>
    obtain ⟨a, w⟩ := p
    by_cases ha : a = k
    · subst ha
      rw [dictPop_cons_self, dictGet_cons_ne _ _ h']
    · rw [dictPop_cons_ne w rest ha]
      by_cases hak : a = k'
      · subst hak
        rw [dictGet_cons_self, dictGet_cons_self]
      · rw [dictGet_cons_ne _ _ hak, dictGet_cons_ne _ _ hak, ih]

theorem mem_dictInsert {α : Type} (m : List (String × α)) (k : String) (v : α)
    (p : String × α) (h : p ∈ dictInsert m k v) : p = (k, v) ∨ p ∈ m := by
  induction m with
  | nil =>
    simp [dictInsert] at h
    exact Or.inl h
  | cons q rest ih =>
    obtain ⟨a, w⟩ := q
    by_cases ha : a = k
    · subst ha
      rw [dictInsert_cons_self, List.mem_cons] at h
      rcases h with h | h
      · exact Or.inl h
      · exact Or.inr (List.mem_cons_of_mem _ h)
    · rw [dictInsert_cons_ne w rest v ha, List.mem_cons] at h
      rcases h with h | h
      · exact Or.inr (by simp [h])
      · rcases ih h with hh | hh
        · exact Or.inl hh
        · exact Or.inr (List.mem_cons_of_mem _ hh)

theorem mem_keys_dictInsert {α : Type} (m : List (String × α)) (k : String) (v : α)
    (x : String) (h : x ∈ (dictInsert m k v).map Prod.fst) :
    x = k ∨ x ∈ m.map Prod.fst := by
  rw [List.mem_map] at h
  obtain ⟨p, hp, hpx⟩ := h
  rcases mem_dictInsert m k v p hp with hh | hh
  · left
    rw [← hpx, hh]
  · right
    rw [List.mem_map]
    exact ⟨p, hh, hpx⟩

theorem nodupKeys_dictInsert {α : Type} (m : List (String × α)) (k : String) (v : α)
    (h : (m.map Prod.fst).Nodup) : ((dictInsert m k v).map Prod.fst).Nodup := by
  induction m with
  | nil => simp [dictInsert]
  | cons p rest ih =>
    obtain ⟨a, w⟩ := p
    rw [List.map_cons, List.nodup_cons] at h
    obtain ⟨hna, hnd⟩ := h
    by_cases ha : a = k
    · subst ha
      rw [dictInsert_cons_self, List.map_cons, List.nodup_cons]
      exact ⟨hna, hnd⟩
    · rw [dictInsert_cons_ne w rest v ha, List.map_cons, List.nodup_cons]
      refine ⟨?_, ih hnd⟩
      intro hmem
      rcases mem_keys_dictInsert rest k v a hmem with hh | hh
      · exact ha hh
      · exact hna hh

theorem length_dictInsert_fresh {α : Type} (m : List (String × α)) (k : String) (v : α)
    (h : dictGet m k = none) : (dictInsert m k v).length = m.length + 1 := by
  induction m with
  | nil => simp [dictInsert]
  | cons p rest ih =>
    obtain ⟨a, w⟩ := p
    by_cases ha : a = k
    · subst ha
      rw [dictGet_cons_self] at h
      exact absurd h (by simp)
    · rw [dictGet_cons_ne _ _ ha] at h
      rw [dictInsert_cons_ne w rest v ha, List.length_cons, List.length_cons, ih h]

theorem length_dictInsert_existing {α : Type} (m : List (String × α)) (k : String)
    (v w : α) (h : dictGet m k = some w) : (dictInsert m k v).length = m.length := by
  induction m with
  | nil => simp [dictGet] at h
  | cons p rest ih =>
    obtain ⟨a, u⟩ := p
    by_cases ha : a = k
    · subst ha
      rw [dictInsert_cons_self, List.length_cons, List.length_cons]
    · rw [dictGet_cons_ne _ _ ha] at h
      rw [dictInsert_cons_ne u rest v ha, List.length_cons, List.length_cons, ih h]

theorem sessionCount_cons (a : String) (v : List (String × TraceThread)) (rest : Registry) :
    sessionCount ((a, v) :: rest) = v.length + sessionCount rest := by
  unfold sessionCount
  rw [List.map_cons, List.sum_cons]

theorem keyCount_cons (a : String) (v : List (String × TraceThread)) (rest : Registry)
    (d t : String) :
    keyCount ((a, v) :: rest) d t
      = (if a = d then v.countP (fun q => q.1 == t) else 0) + keyCount rest d t := by
  unfold keyCount
  rw [List.map_cons, List.sum_cons]

theorem sessionCount_dictInsert_fresh (reg : Registry) (d : String)
    (v : List (String × TraceThread)) (h : dictGet reg d = none) :
    sessionCount (dictInsert reg d v) = sessionCount reg + v.length := by
  induction reg with
  | nil =>
    show sessionCount [(d, v)] = sessionCount [] + v.length
    rw [sessionCount_cons]
    simp [sessionCount]
  | cons p rest ih =>
    obtain ⟨a, w⟩ := p
    by_cases ha : a = d
    · subst ha
      rw [dictGet_cons_self] at h
      exact absurd h (by simp)
    · rw [dictGet_cons_ne _ _ ha] at h
      rw [dictInsert_cons_ne w rest v ha, sessionCount_cons, sessionCount_cons, ih h]
      omega

theorem sessionCount_dictInsert_existing (reg : Registry) (d : String)
    (v threads : List (String × TraceThread)) (h : dictGet reg d = some threads) :
    sessionCount (dictInsert reg d v) + threads.length = sessionCount reg + v.length := by
  induction reg with
  | nil => simp [dictGet] at h
  | cons p rest ih =>
    obtain ⟨a, w⟩ := p
    by_cases ha : a = d
    · subst ha
      rw [dictGet_cons_self, Option.some.injEq] at h
      subst h
      rw [dictInsert_cons_self, sessionCount_cons, sessionCount_cons]
      omega
    · rw [dictGet_cons_ne _ _ ha] at h
      rw [dictInsert_cons_ne w rest v ha, sessionCount_cons, sessionCount_cons]
      have := ih h
      omega

theorem countP_keys_le_one {α : Type} (m : List (String × α)) (t : String)
    (h : (m.map Prod.fst).Nodup) : m.countP (fun q => q.1 == t) ≤ 1 := by
  induction m with
  | nil => simp
  | cons p rest ih =>
    obtain ⟨a, w⟩ := p
    rw [List.map_cons, List.nodup_cons] at h
    obtain ⟨hna, hnd⟩ := h
    rw [List.countP_cons]
    by_cases ha : a = t
    · subst ha
      have h0 : rest.countP (fun q => q.1 == a) = 0 := by
        rw [List.countP_eq_zero]
        intro q hq hq'
        have hqa : q.1 = a := by simpa using hq'
        exact hna (by rw [List.mem_map]; exact ⟨q, hq, hqa⟩)
      simp [h0]
    · have hfalse : (((a, w) : String × α).1 == t) = false := by simpa using ha
      simp [hfalse]
      exact ih hnd

theorem keyCount_of_not_mem (reg : Registry) (d t : String)
    (h : d ∉ reg.map Prod.fst) : keyCount reg d t = 0 := by
  induction reg with
  | nil => rfl
  | cons p rest ih =>
    obtain ⟨a, v⟩ := p
    rw [List.map_cons, List.mem_cons, not_or] at h
    rw [keyCount_cons, if_neg (fun hh => h.1 hh.symm), ih h.2]

theorem keyCount_le_one (reg : Registry) (d t : String) : RegWF reg → keyCount reg d t ≤ 1 := by
  induction reg with
  | nil =>
    intro _
    simp [keyCount]
  | cons p rest ih =>
    intro h
    obtain ⟨a, v⟩ := p
    have houter := h.1
    have hinner := h.2
    rw [List.map_cons, List.nodup_cons] at houter
    obtain ⟨hna, hnd⟩ := houter
    have ihrest : keyCount rest d t ≤ 1 :=
      ih ⟨hnd, fun q hq => hinner q (List.mem_cons_of_mem _ hq)⟩
    rw [keyCount_cons]
    by_cases ha : a = d
    · subst ha
      have h0 : keyCount rest a t = 0 := keyCount_of_not_mem rest a t hna
      have hv : (v.map Prod.fst).Nodup := hinner (a, v) (List.mem_cons_self _ _)
      have hcp := countP_keys_le_one v t hv
      rw [if_pos rfl, h0]
      omega
    · rw [if_neg ha]
      omega

/-! ## Lemmas about substring containment (the router's `KeyError` repr test) -/

theorem containsSubList_nil_pat (l : List Char) : containsSubList [] l = true := by
  cases l <;> simp [containsSubList, List.isPrefixOf]

theorem isPrefixOf_append_right (pat l r : List Char) (h : pat.isPrefixOf l = true) :
    pat.isPrefixOf (l ++ r) = true := by
  rw [List.isPrefixOf_iff_prefix] at h ⊢
  exact h.trans (List.prefix_append l r)

theorem containsSubList_append_right (pat l r : List Char)
    (h : containsSubList pat l = true) : containsSubList pat (l ++ r) = true := by
  induction l with
  | nil =>
    have : pat = [] := by simpa [containsSubList, List.isEmpty_iff] using h
    subst this
    exact containsSubList_nil_pat _
  | cons c rest ih =>
    simp only [containsSubList, Bool.or_eq_true] at h
    rw [List.cons_append]
    simp only [containsSubList, Bool.or_eq_true]
    rcases h with h | h
    · left
      have := isPrefixOf_append_right pat (c :: rest) r h
      simpa using this
    · right
      exact ih h

theorem tableKeyErrorRepr_contains (m : RequestType) (name : String) :
    containsSub (tableKeyErrorRepr m name) "RequestType" = true := by
  have hx : containsSubList "RequestType".data ("KeyError((" ++ requestTypeRepr m).data = true := by
    cases m <;> decide
  unfold tableKeyErrorRepr containsSub
  rw [String.data_append]
  exact containsSubList_append_right _ _ _ hx

/-! ## Poll-loop lemmas -/

theorem pollStatusLoop_not_found (polls : Nat → String) (target_id err : String)
    (fuel start : Nat) (h : ∀ i, start ≤ i → i < start + fuel → polls i ≠ "TRACE_OK\n") :
    pollStatusLoop polls target_id err fuel start = (false, true) := by
  induction fuel generalizing start with
  | zero => rfl
  | succ n ih =>
    have hs : polls start ≠ "TRACE_OK\n" := h start le_rfl (by omega)
    simp only [pollStatusLoop, if_neg hs]
    exact ih (start + 1) (fun i h1 h2 => h i (by omega) (by omega))

theorem pollStatusLoop_found (polls : Nat → String) (target_id err : String)
    (fuel start : Nat) (h : ∃ i, start ≤ i ∧ i < start + fuel ∧ polls i = "TRACE_OK\n") :
    pollStatusLoop polls target_id err fuel start
      = ((if target_id = "PerfettoTrace" then true else decide (err.length = 0)), false) := by
  induction fuel generalizing start with
  | zero =>
    obtain ⟨i, h1, h2, _⟩ := h
    omega
  | succ n ih =>
    by_cases hs : polls start = "TRACE_OK\n"
    · simp only [pollStatusLoop, if_pos hs]
    · simp only [pollStatusLoop, if_neg hs]
      obtain ⟨i, h1, h2, h3⟩ := h
      have hne : i ≠ start := fun hh => hs (hh ▸ h3)
      exact ih (start + 1) ⟨i, by omega, by omega, h3⟩

/-! ## Shared sample sessions and tables for concrete witnesses -/

/-- A sample completed (no longer alive) session. -/
def sampleDeadThread : TraceThread :=
  { target_id := "t", device_id := "d",
    status_filename := "/data/local/tmp/winscope_status_t",
    keep_alive_timer_armed := false, out := "", err := "",
    command_timed_out := false, success := true, alive := false }

/-- A sample live session. -/
def sampleAliveThread : TraceThread :=
  { target_id := "t", device_id := "d",
    status_filename := "/data/local/tmp/winscope_status_t",
    keep_alive_timer_armed := true, out := "", err := "",
    command_timed_out := false, success := false, alive := true }

/-- The registration table with the status endpoint wired in and the
endpoints outside the modelled core stubbed. -/
def sampleTable : RequestType × String → Option EndpointFn :=
  adbWinscopeEndpoints unmodeledEndpoint statusEndpointFn unmodeledEndpoint
    unmodeledEndpoint unmodeledEndpoint unmodeledEndpoint

/-! ## Router helper lemma shared by the unknown-endpoint claims -/

theorem router_unknown_core (endpoints : RequestType × String → Option EndpointFn)
    (secret : String) (reg : Registry) (method : RequestType) (reqPath : String)
    (name : String) (rest : List String)
    (hsecret : secret ≠ "")
    (hparse : (pySplit '/' (stripChar '/' reqPath.data)).map (fun l => String.mk l)
      = name :: rest)
    (hlook : endpoints (method, name) = none) :
    RequestRouter.process endpoints secret reg method reqPath (some secret)
      = (badRequestResp ("Unknown endpoint /" ++ name ++ "/"), reg) := by
  unfold RequestRouter.process
  rw [if_neg (by simp [pyFalsy, hsecret] :
    ¬((pyFalsy (some secret) || !((some secret : Option String) == some secret)) = true))]
  simp only [hparse, hlook]
  simp [RequestRouter.classifyExn, tableKeyErrorRepr_contains]

/-! ## Claims -/

/-- C6: for every request whose token header is absent or differs from the
process-wide secret, `RequestRouter.process` answers with the 403 bad-token
response, the registry is unchanged, and no endpoint logic executes (the
result is the same for every endpoint table). -/
theorem router_bad_token_spec (endpoints : RequestType × String → Option EndpointFn)
    (secret : String) (reg : Registry) (method : RequestType) (reqPath : String)
    (token : Option String) (h : token ≠ some secret) :
    RequestRouter.process endpoints secret reg method reqPath token = (badTokenResp, reg) := by
  have hb : (token == some secret) = false := beq_eq_false_iff_ne.2 h
  unfold RequestRouter.process
  rw [hb]
  simp

/-- Witness for C6 at concrete inputs: an absent header and a wrong token. -/
theorem router_bad_token_spec_witness :
    RequestRouter.process sampleTable "secret" emptyRegistry RequestType.GET "/devices" none
      = (badTokenResp, emptyRegistry) ∧
    RequestRouter.process sampleTable "secret" emptyRegistry RequestType.POST "/starttrace/d"
      (some "wrong") = (badTokenResp, emptyRegistry) :=
  ⟨router_bad_token_spec _ _ _ _ _ _ (by decide),
   router_bad_token_spec _ _ _ _ _ _ (by decide)⟩

/-- C7: for every authenticated request whose (method, first path segment)
pair is not in the endpoint table, the router answers 400 with the
bad-request body naming the unknown endpoint, leaving the registry
unchanged. -/
theorem router_unknown_endpoint_spec (endpoints : RequestType × String → Option EndpointFn)
    (secret : String) (reg : Registry) (method : RequestType) (reqPath : String)
    (name : String) (rest : List String)
    (hsecret : secret ≠ "")
    (hparse : (pySplit '/' (stripChar '/' reqPath.data)).map (fun l => String.mk l)
      = name :: rest)
    (hlook : endpoints (method, name) = none) :
    RequestRouter.process endpoints secret reg method reqPath (some secret)
      = (badRequestResp ("Unknown endpoint /" ++ name ++ "/"), reg) ∧
    (badRequestResp ("Unknown endpoint /" ++ name ++ "/")).status = 400 :=
  ⟨router_unknown_core endpoints secret reg method reqPath name rest hsecret hparse hlook, rfl⟩

/-- Witness for C7: a GET for `/nosuch` against the real table. -/
theorem router_unknown_endpoint_spec_witness :
    RequestRouter.process sampleTable "secret" emptyRegistry RequestType.GET "/nosuch"
      (some "secret")
      = (badRequestResp ("Unknown endpoint /" ++ "nosuch" ++ "/"), emptyRegistry) :=
  (router_unknown_endpoint_spec sampleTable "secret" emptyRegistry RequestType.GET "/nosuch"
    "nosuch" [] (by decide) (by decide) rfl).1

/-- C10: Python's `split` always returns at least one segment, so the
router's trailing `No endpoint specified` branch is unreachable; a request
for the bare path `/` is answered 400 `Unknown endpoint //`. -/
theorem router_path_never_empty_spec :
    (∀ (sep : Char) (l : List Char), pySplit sep l ≠ []) ∧
    (∀ (devices status fetch runadbcmd starttrace endtrace : EndpointFn)
       (secret : String) (reg : Registry), secret ≠ "" →
      RequestRouter.process
        (adbWinscopeEndpoints devices status fetch runadbcmd starttrace endtrace)
        secret reg RequestType.GET "/" (some secret)
        = (badRequestResp "Unknown endpoint //", reg)) := by
  constructor
  · intro sep l
    cases l with
    | nil => simp [pySplit]
    | cons c rest =>
      simp only [pySplit]
      cases pySplit sep rest with
      | nil => simp
      | cons seg segs => by_cases h : c = sep <;> simp [h]
  · intro devices status fetch runadbcmd starttrace endtrace secret reg hsecret
    have h := router_unknown_core
      (adbWinscopeEndpoints devices status fetch runadbcmd starttrace endtrace)
      secret reg RequestType.GET "/" "" [] hsecret (by decide) rfl
    have e : ("Unknown endpoint /" ++ "" ++ "/") = "Unknown endpoint //" := by decide
    rw [e] at h
    exact h

/-- Witness for C10 at concrete inputs (table stubs, concrete secret). -/
theorem router_path_never_empty_spec_witness :
    pySplit '/' "".data ≠ [] ∧
    RequestRouter.process sampleTable "secret" emptyRegistry RequestType.GET "/" (some "secret")
      = (badRequestResp "Unknown endpoint //", emptyRegistry) :=
  ⟨router_path_never_empty_spec.1 '/' "".data,
   router_path_never_empty_spec.2 unmodeledEndpoint statusEndpointFn unmodeledEndpoint
     unmodeledEndpoint unmodeledEndpoint unmodeledEndpoint "secret" emptyRegistry (by decide)⟩

/-- C1 (counterexample): a status poll for a device id with no registered
sessions at all does NOT answer 200 `false`: `StatusEndpoint` raises
`BadRequest`, which the router converts into a 400 response. -/
theorem status_unknown_device_counterexample :
    StatusEndpoint.process_with_device emptyRegistry ["t"] "d"
      = Except.error (PyExn.badRequest "No trace in progress for d") ∧
    RequestRouter.process sampleTable "s" emptyRegistry RequestType.GET "/status/d/t" (some "s")
      = (badRequestResp "No trace in progress for d", emptyRegistry) ∧
    (RequestRouter.process sampleTable "s" emptyRegistry RequestType.GET "/status/d/t"
      (some "s")).1.status = 400 :=
  ⟨rfl, by decide, by decide⟩

/-- C1 (amended): a status poll for a pair whose device id has registered
sessions but whose target id is absent answers 200 with body `"False"`
(Python `str(False)`) without touching the registry; a poll for a device id
with no sessions at all instead raises `BadRequest` (surfaced by the router
as a 400). -/
theorem status_unknown_pair_spec (reg : Registry) (device_id target : String)
    (rest : List String) :
    (dictGet reg device_id = none →
      StatusEndpoint.process_with_device reg (target :: rest) device_id
        = Except.error (PyExn.badRequest ("No trace in progress for " ++ device_id))) ∧
    (∀ threads, dictGet reg device_id = some threads → dictGet threads target = none →
      StatusEndpoint.process_with_device reg (target :: rest) device_id
        = Except.ok ({ status := 200, body := "False", mime := "text/plain" }, reg)) := by
  constructor
  · intro h
    unfold StatusEndpoint.process_with_device
    rw [h]
  · intro threads hd ht
    unfold StatusEndpoint.process_with_device
    simp only [hd, ht]
    rfl

/-- Witness for C1 at concrete inputs: absent device and absent target. -/
theorem status_unknown_pair_spec_witness :
    StatusEndpoint.process_with_device emptyRegistry ["u"] "nodev"
      = Except.error (PyExn.badRequest ("No trace in progress for " ++ "nodev")) ∧
    StatusEndpoint.process_with_device [("d", [("t", sampleDeadThread)])] ["other"] "d"
      = Except.ok ({ status := 200, body := "False", mime := "text/plain" },
          [("d", [("t", sampleDeadThread)])]) :=
  ⟨(status_unknown_pair_spec emptyRegistry "nodev" "u" []).1 rfl,
   (status_unknown_pair_spec [("d", [("t", sampleDeadThread)])] "d" "other" []).2
     [("t", sampleDeadThread)] rfl rfl⟩

/-- C9 (counterexample): for a registered live session the response body is
`"True"` (Python `str(True)`), not the lowercase `"true"` the claim states. -/
theorem status_body_capitalization_counterexample :
    StatusEndpoint.process_with_device [("d", [("t", sampleAliveThread)])] ["t"] "d"
      = Except.ok ({ status := 200, body := "True", mime := "text/plain" },
          [("d", [("t", sampleAliveThread.reset_timer)])]) ∧
    "True" ≠ "true" ∧ "False" ≠ "false" :=
  ⟨rfl, by decide, by decide⟩

/-- C9 (amended): a status poll on a registered pair rearms the session's
keep-alive timer and answers 200 with body `str(thread.is_alive())`, i.e.
`"True"` when the thread is alive and `"False"` otherwise. -/
theorem status_registered_pair_spec (reg : Registry) (device_id target : String)
    (rest : List String) (threads : List (String × TraceThread)) (thread : TraceThread)
    (hd : dictGet reg device_id = some threads)
    (ht : dictGet threads target = some thread) :
    StatusEndpoint.process_with_device reg (target :: rest) device_id
      = Except.ok ({ status := 200, body := pyStrBool thread.alive, mime := "text/plain" },
          dictInsert reg device_id (dictInsert threads target thread.reset_timer)) ∧
    pyStrBool true = "True" ∧ pyStrBool false = "False" := by
  refine ⟨?_, rfl, rfl⟩
  unfold StatusEndpoint.process_with_device
  simp only [hd, ht]

/-- Witness for C9 at a concrete registered pair. -/
theorem status_registered_pair_spec_witness :
    StatusEndpoint.process_with_device [("d", [("t", sampleDeadThread)])] ["t"] "d"
      = Except.ok
          ({ status := 200, body := pyStrBool sampleDeadThread.alive, mime := "text/plain" },
          dictInsert [("d", [("t", sampleDeadThread)])] "d"
            (dictInsert [("t", sampleDeadThread)] "t" sampleDeadThread.reset_timer)) ∧
    pyStrBool sampleDeadThread.alive = "False" :=
  ⟨(status_registered_pair_spec [("d", [("t", sampleDeadThread)])] "d" "t" []
      [("t", sampleDeadThread)] sampleDeadThread rfl rfl).1, rfl⟩

/-- Device-id character set as the claim words it — alphanumerics, dot,
colon, and hyphen, with no underscore.  Written from the spec sentence, for
comparison with the source regex `[A-Za-z0-9._:\-]+`. -/
def specDeviceIdChar (c : Char) : Bool :=
  (decide (Char.ofNat 65 ≤ c ∧ c ≤ Char.ofNat 90)) ||
  (decide (Char.ofNat 97 ≤ c ∧ c ≤ Char.ofNat 122)) ||
  (decide (Char.ofNat 48 ≤ c ∧ c ≤ Char.ofNat 57)) ||
  c = '.' || c = ':' || c = '-'

/-- A probe endpoint recording that `process_with_device` was reached with a
given device id (standing for "a command was run with this id"). -/
def probeEndpoint : Registry → List String → String → Except PyExn (Response × Registry) :=
  fun reg _ device_id =>
    Except.ok ({ status := 200, body := "reached " ++ device_id, mime := "text/plain" }, reg)

/-- C8 (counterexample): the device id `a_b` contains a character outside
the claim's set (the underscore), yet the source regex accepts it and the
endpoint body runs instead of failing validation. -/
theorem device_id_underscore_counterexample :
    deviceIdMatches "a_b" = true ∧
    "a_b".data.all specDeviceIdChar = false ∧
    DeviceRequestEndpoint.process probeEndpoint emptyRegistry ["a_b"]
      = Except.ok ({ status := 200, body := "reached " ++ "a_b", mime := "text/plain" },
          emptyRegistry) :=
  ⟨by decide, by decide, rfl⟩

/-- C8 (amended): a device id is used only if it matches
`[A-Za-z0-9._:\-]+` — alphanumerics, dot, underscore, colon, hyphen; a
non-matching or absent device id raises `BadRequest` (a 400) and the
endpoint body (hence any adb command) never runs. -/
theorem device_id_validation_spec
    (pwd : Registry → List String → String → Except PyExn (Response × Registry))
    (reg : Registry) (d : String) (rest : List String) :
    (deviceIdMatches d = false →
      DeviceRequestEndpoint.process pwd reg (d :: rest)
        = Except.error (PyExn.badRequest "Device id not specified")) ∧
    (DeviceRequestEndpoint.process pwd reg []
      = Except.error (PyExn.badRequest "Device id not specified")) ∧
    (deviceIdMatches d = true →
      DeviceRequestEndpoint.process pwd reg (d :: rest) = pwd reg rest d) ∧
    (deviceIdMatches d = true ↔ d ≠ "" ∧ ∀ c ∈ d.data, deviceIdChar c = true) := by
  refine ⟨?_, rfl, ?_, ?_⟩
  · intro h
    show (if deviceIdMatches d = true then pwd reg rest d
          else Except.error (PyExn.badRequest "Device id not specified"))
        = Except.error (PyExn.badRequest "Device id not specified")
    rw [h]
    rfl
  · intro h
    show (if deviceIdMatches d = true then pwd reg rest d
          else Except.error (PyExn.badRequest "Device id not specified"))
        = pwd reg rest d
    rw [h]
    rfl
  · unfold deviceIdMatches
    rw [Bool.and_eq_true, List.all_eq_true]
    constructor
    · rintro ⟨h1, h2⟩
      refine ⟨?_, h2⟩
      intro hd
      subst hd
      exact absurd h1 (by decide)
    · rintro ⟨h1, h2⟩
      refine ⟨?_, h2⟩
      rw [Bool.not_eq_true']
      rw [show (String.isEmpty d = false) ↔ ¬(String.isEmpty d = true) from by simp]
      rw [String.isEmpty_iff]
      exact h1

/-- Witness for C8 at concrete inputs: a rejected id and an accepted one. -/
theorem device_id_validation_spec_witness :
    DeviceRequestEndpoint.process probeEndpoint emptyRegistry ["bad id!"]
      = Except.error (PyExn.badRequest "Device id not specified") ∧
    DeviceRequestEndpoint.process probeEndpoint emptyRegistry ["emulator-5554", "x"]
      = probeEndpoint emptyRegistry ["x"] "emulator-5554" :=
  ⟨(device_id_validation_spec probeEndpoint emptyRegistry "bad id!" []).1 (by decide),
   (device_id_validation_spec probeEndpoint emptyRegistry "emulator-5554" ["x"]).2.2.1
     (by decide)⟩

/-- C2: the claim (and the spec) say a stop whose 15-second `wait` times out
kills the process and sets the timed-out flag.  The code's handler is
`except TimeoutError:`, which does not catch the `subprocess.TimeoutExpired`
that `Popen.wait` actually raises, so on a wait timeout the kill branch
never runs, no flag is set in `end_trace`, and the exception propagates out
of the stop sequence. -/
theorem end_trace_wait_timeout_uncaught (t : TraceThread) :
    t.end_trace true = Except.error PyExn.timeoutExpired ∧
    PyExn.isTimeoutError PyExn.timeoutExpired = false ∧
    t.end_trace false
      = Except.ok ({ t with keep_alive_timer_armed := false, alive := false },
          { timer_cancelled := t.keep_alive_timer_armed, sigint_sent := true,
            killed := false, joined := true }) :=
  ⟨rfl, rfl, rfl⟩

/-- C3: completion reconciliation.  If some poll within the 150-iteration
bound observes the `TRACE_OK` sentinel, the success flag is `true` for the
`PerfettoTrace` target and otherwise true iff the captured stderr is empty,
with the timed-out flag left `false`; if no poll observes it, the timed-out
flag is set and success stays `false`. -/
theorem trace_run_reconcile_spec (polls : Nat → String) (target_id err : String) :
    ((∃ i, i < pollBound ∧ polls i = "TRACE_OK\n") →
      TraceThread.run_reconcile polls target_id err
        = ((if target_id = "PerfettoTrace" then true else decide (err.length = 0)), false)) ∧
    ((∀ i, i < pollBound → polls i ≠ "TRACE_OK\n") →
      TraceThread.run_reconcile polls target_id err = (false, true)) := by
  constructor
  · intro h
    obtain ⟨i, h1, h2⟩ := h
    exact pollStatusLoop_found polls target_id err pollBound 0 ⟨i, Nat.zero_le i, by omega, h2⟩
  · intro h
    exact pollStatusLoop_not_found polls target_id err pollBound 0
      (fun i _ h2 => h i (by omega))

/-- Witness for C3: sentinel observed with the always-succeeds backend,
sentinel observed with nonempty stderr, and sentinel never observed. -/
theorem trace_run_reconcile_spec_witness :
    TraceThread.run_reconcile (fun _ => "TRACE_OK\n") "PerfettoTrace" "oops" = (true, false) ∧
    TraceThread.run_reconcile (fun i => if i = 3 then "TRACE_OK\n" else "")
      "SurfaceFlinger" "oops" = (false, false) ∧
    TraceThread.run_reconcile (fun _ => "TRACE_START\n") "PerfettoTrace" "" = (false, true) := by
  refine ⟨?_, ?_, ?_⟩
  · have h := (trace_run_reconcile_spec (fun _ => "TRACE_OK\n") "PerfettoTrace" "oops").1
      ⟨0, by decide, rfl⟩
    simpa using h
  · have h := (trace_run_reconcile_spec (fun i => if i = 3 then "TRACE_OK\n" else "")
      "SurfaceFlinger" "oops").1 ⟨3, by decide, by decide⟩
    simpa using h
  · exact (trace_run_reconcile_spec (fun _ => "TRACE_START\n") "PerfettoTrace" "").2
      (fun i _ => by decide)

/-- C4: one start-request registration keeps the registry an image of nested
Python dicts (so at most one session per (device id, target id) key), makes
the new thread the registered session for its key, adds exactly one entry
when the pair was previously unused, overwrites in place (same total count)
when it was in use, never fails, and leaves every other key untouched. -/
theorem start_trace_register_spec (reg : Registry) (d t : String) (th : TraceThread)
    (hwf : RegWF reg) :
    RegWF (StartTraceEndpoint.registerThread reg d t th) ∧
    (∀ d' t', keyCount (StartTraceEndpoint.registerThread reg d t th) d' t' ≤ 1) ∧
    dictGet2 (StartTraceEndpoint.registerThread reg d t th) d t = some th ∧
    (dictGet2 reg d t = none →
      sessionCount (StartTraceEndpoint.registerThread reg d t th) = sessionCount reg + 1) ∧
    (∀ th0, dictGet2 reg d t = some th0 →
      sessionCount (StartTraceEndpoint.registerThread reg d t th) = sessionCount reg) ∧
    (∀ d' t', (d' ≠ d ∨ t' ≠ t) →
      dictGet2 (StartTraceEndpoint.registerThread reg d t th) d' t' = dictGet2 reg d' t') := by
  rcases hdev : dictGet reg d with _ | threads
  · have hreg : StartTraceEndpoint.registerThread reg d t th
        = dictInsert reg d (dictInsert [] t th) := by
      unfold StartTraceEndpoint.registerThread
      rw [hdev]
    have hwf' : RegWF (dictInsert reg d (dictInsert [] t th)) := by
      constructor
      · exact nodupKeys_dictInsert reg d _ hwf.1
      · intro p hp
        rcases mem_dictInsert reg d _ p hp with hh | hh
        · rw [hh]
          simp [dictInsert]
        · exact hwf.2 p hh
    refine ⟨by rw [hreg]; exact hwf', ?_, ?_, ?_, ?_, ?_⟩
    · intro d' t'
      rw [hreg]
      exact keyCount_le_one _ d' t' hwf'
    · rw [hreg]
      simp only [dictGet2, dictGet_dictInsert_self]
    · intro _
      rw [hreg, sessionCount_dictInsert_fresh reg d (dictInsert [] t th) hdev]
      rfl
    · intro th0 habs
      simp only [dictGet2, hdev] at habs
      exact absurd habs (by simp)
    · intro d' t' hne
      rw [hreg]
      by_cases hd' : d' = d
      · subst hd'
        have ht' : t' ≠ t := by
          rcases hne with hh | hh
          · exact absurd rfl hh
          · exact hh
        simp only [dictGet2, dictGet_dictInsert_self, hdev,
          dictGet_dictInsert_ne [] t t' th ht']
        rfl
      · simp only [dictGet2, dictGet_dictInsert_ne reg d d' _ hd']
  · have hreg : StartTraceEndpoint.registerThread reg d t th
        = dictInsert reg d (dictInsert threads t th) := by
      unfold StartTraceEndpoint.registerThread
      rw [hdev]
    have hthreads_nodup : (threads.map Prod.fst).Nodup :=
      hwf.2 (d, threads) (mem_of_dictGet reg d threads hdev)
    have hwf' : RegWF (dictInsert reg d (dictInsert threads t th)) := by
      constructor
      · exact nodupKeys_dictInsert reg d _ hwf.1
      · intro p hp
        rcases mem_dictInsert reg d _ p hp with hh | hh
        · rw [hh]
          exact nodupKeys_dictInsert threads t th hthreads_nodup
        · exact hwf.2 p hh
    refine ⟨by rw [hreg]; exact hwf', ?_, ?_, ?_, ?_, ?_⟩
    · intro d' t'
      rw [hreg]
      exact keyCount_le_one _ d' t' hwf'
    · rw [hreg]
      simp only [dictGet2, dictGet_dictInsert_self]
    · intro hfresh
      simp only [dictGet2, hdev] at hfresh
      rw [hreg]
      have h1 := sessionCount_dictInsert_existing reg d (dictInsert threads t th) threads hdev
      have h2 := length_dictInsert_fresh threads t th hfresh
      omega
    · intro th0 hused
      simp only [dictGet2, hdev] at hused
      rw [hreg]
      have h1 := sessionCount_dictInsert_existing reg d (dictInsert threads t th) threads hdev
      have h2 := length_dictInsert_existing threads t th th0 hused
      omega
    · intro d' t' hne
      rw [hreg]
      by_cases hd' : d' = d
      · subst hd'
        have ht' : t' ≠ t := by
          rcases hne with hh | hh
          · exact absurd rfl hh
          · exact hh
        simp only [dictGet2, dictGet_dictInsert_self, hdev,
          dictGet_dictInsert_ne threads t t' th ht']
      · simp only [dictGet2, dictGet_dictInsert_ne reg d d' _ hd']

/-- Witness for C4: a fresh pair creates exactly one entry; restarting the
same pair overwrites it and keeps the count at one. -/
theorem start_trace_register_spec_witness :
    StartTraceEndpoint.registerThread emptyRegistry "d" "t" sampleAliveThread
      = [("d", [("t", sampleAliveThread)])] ∧
    dictGet2 (StartTraceEndpoint.registerThread emptyRegistry "d" "t" sampleAliveThread)
      "d" "t" = some sampleAliveThread ∧
    sessionCount (StartTraceEndpoint.registerThread emptyRegistry "d" "t" sampleAliveThread)
      = 1 ∧
    sessionCount (StartTraceEndpoint.registerThread [("d", [("t", sampleAliveThread)])]
      "d" "t" sampleDeadThread) = sessionCount [("d", [("t", sampleAliveThread)])] := by
  refine ⟨rfl, ?_, ?_, ?_⟩
  · exact (start_trace_register_spec emptyRegistry "d" "t" sampleAliveThread (by decide)).2.2.1
  · have h := (start_trace_register_spec emptyRegistry "d" "t" sampleAliveThread
      (by decide)).2.2.2.1 rfl
    simpa using h
  · exact (start_trace_register_spec [("d", [("t", sampleAliveThread)])] "d" "t"
      sampleDeadThread (by decide)).2.2.2.2.1 sampleAliveThread rfl

/-- Helper for C5: ending a trace for a pair with no registered session
raises `BadRequest` (either because the device has no entry or because the
target is not among the device's sessions). -/
theorem endTrace_absent_error (reg : Registry) (wt : Bool)
    (shLog target_id device_id : String)
    (h : dictGet2 reg device_id target_id = none) :
    ∃ msg, EndTraceEndpoint.process_with_device reg wt shLog target_id device_id
      = Except.error (PyExn.badRequest msg) := by
  unfold EndTraceEndpoint.process_with_device
  rcases hdev : dictGet reg device_id with _ | threads
  · exact ⟨"No trace in progress for " ++ device_id, rfl⟩
  · simp only [dictGet2, hdev] at h
    simp only [h]
    exact ⟨"No " ++ target_id ++ " trace in progress for " ++ device_id, rfl⟩

/-- C5: a successful end-trace removes the session's registry slot, removes
the device's entry entirely when that was its last target, and a repeated
end-trace for the same pair raises `BadRequest` (a 400 validation failure). -/
theorem end_trace_registry_removal_spec (reg : Registry) (wt : Bool)
    (shLog target_id device_id : String) (resp : Response) (reg' : Registry)
    (hwf : RegWF reg)
    (h : EndTraceEndpoint.process_with_device reg wt shLog target_id device_id
      = Except.ok (resp, reg')) :
    dictGet2 reg' device_id target_id = none ∧
    (∀ threads, dictGet reg device_id = some threads → threads.length = 1 →
      dictGet reg' device_id = none) ∧
    (∃ msg, EndTraceEndpoint.process_with_device reg' wt shLog target_id device_id
      = Except.error (PyExn.badRequest msg)) := by
  unfold EndTraceEndpoint.process_with_device at h
  rcases hdev : dictGet reg device_id with _ | threads
  · rw [hdev] at h
    exact absurd h (by simp)
  · rw [hdev] at h
    rcases htgt : dictGet threads target_id with _ | thread
    · simp only [htgt] at h
      exact absurd h (by simp)
    · simp only [htgt] at h
      rcases hend : (if thread.alive then (thread.end_trace wt).map (fun r => r.1)
          else Except.ok thread) with e | thread'
      · rw [hend] at h
        exact absurd h (by simp)
      · rw [hend] at h
        simp only [Except.ok.injEq, Prod.mk.injEq] at h
        obtain ⟨hresp, hreg'⟩ := h
        have hnd_outer : (reg.map Prod.fst).Nodup := hwf.1
        have hnd_inner : (threads.map Prod.fst).Nodup :=
          hwf.2 (device_id, threads) (mem_of_dictGet reg device_id threads hdev)
        have hmain : dictGet2 reg' device_id target_id = none := by
          rw [← hreg']
          by_cases hemp : (dictPop threads target_id).isEmpty
          · rw [if_pos hemp]
            simp only [dictGet2, dictGet_dictPop_self reg device_id hnd_outer]
          · rw [if_neg hemp]
            simp only [dictGet2, dictGet_dictInsert_self,
              dictGet_dictPop_self threads target_id hnd_inner]
        refine ⟨hmain, ?_, endTrace_absent_error reg' wt shLog target_id device_id hmain⟩
        intro threads0 h0 hlen
        have h0' : threads0 = threads := by
          injection h0 with hh
          exact hh.symm
        subst h0'
        have hsingle : threads0 = [(target_id, thread)] := by
          have hmem := mem_of_dictGet threads0 target_id thread htgt
          cases threads0 with
          | nil => simp at hmem
          | cons p rest =>
            cases rest with
            | nil =>
              rcases List.mem_singleton.1 hmem with hh
              rw [hh]
            | cons q rest2 => simp at hlen
        subst hsingle
        have hemp : (dictPop [(target_id, thread)] target_id).isEmpty = true := by
          simp [dictPop]
        rw [← hreg', if_pos hemp]
        exact dictGet_dictPop_self reg device_id hnd_outer

/-- Witness for C5 at a concrete one-target registry: the pair's slot and
the device entry are both removed, and a second end-trace raises. -/
theorem end_trace_registry_removal_spec_witness :
    EndTraceEndpoint.process_with_device [("d", [("t", sampleDeadThread)])] false "" "t" "d"
      = Except.ok ({ status := 200, body := "[]", mime := "text/plain" }, emptyRegistry) ∧
    dictGet2 emptyRegistry "d" "t" = none ∧
    (∃ msg, EndTraceEndpoint.process_with_device emptyRegistry false "" "t" "d"
      = Except.error (PyExn.badRequest msg)) := by
  have hrun : EndTraceEndpoint.process_with_device [("d", [("t", sampleDeadThread)])]
      false "" "t" "d"
      = Except.ok ({ status := 200, body := "[]", mime := "text/plain" }, emptyRegistry) := rfl
  have h := end_trace_registry_removal_spec [("d", [("t", sampleDeadThread)])] false "" "t" "d"
    { status := 200, body := "[]", mime := "text/plain" } emptyRegistry (by decide) hrun
  exact ⟨hrun, h.1, h.2.2⟩

end WinscopeProxy
